import Mathlib

/-!
Shallow embedding of the Taboola Prebid.js integration: the bid adapter
(`modules/taboolaBidAdapter.js`) and the Taboola user-ID submodule
(`taboolaIdSystem`).  JavaScript values that flow through the identity
resolution code are modelled by `JVal`; the browser storage backends
(localStorage, cookie jar, the injected `window.TRC` global) are modelled
by an explicit `StorageState`.  JavaScript exceptions are modelled with
`Except Unit`.
-/

/-- Model of the JavaScript values the identity code manipulates:
`undefined`, `null`, numbers, strings and booleans. -/
inductive JVal where
  | undefined
  | null
  | num (n : Int)
  | str (s : String)
  | bool (b : Bool)
deriving DecidableEq, Repr

namespace JVal

/-- JavaScript truthiness for the values of `JVal`. -/
def truthy : JVal → Bool
  | .undefined => false
  | .null => false
  | .num n => n ≠ 0
  | .str s => s ≠ ""
  | .bool b => b

end JVal

/-- JavaScript `a || b`: `b` when `a` is falsy, `a` otherwise. -/
def jsOr (a b : JVal) : JVal := if a.truthy then a else b

/-- JavaScript truthiness filter on a nullable string: `getCookie` results and
similar values are truthy exactly when they are present and non-empty. -/
def truthyOpt (o : Option String) : Option String :=
  match o with
  | some s => if s = "" then none else some s
  | none => none

/-- Shared ambient browser storage visible to both copies of the resolver:
the durable key-value store (under the fixed key `"taboola global:user-id"`),
the cookie jar entries the code probes, and the in-page `window.TRC` global. -/
structure StorageState where
  hasLocalStorage : Bool
  localStorageEnabled : Bool
  /-- Value stored under `"taboola global:user-id"`; `none` means the key is
  absent (JS `getItem` yields `null`). -/
  localStorageVal : Option String
  cookiesEnabled : Bool
  /-- Cookie `"trc_cookie_storage"` (`none` = absent, JS `getCookie` yields
  `null`). -/
  trcCookieStorage : Option String
  /-- Legacy cookie `"t_gid"`. -/
  tGid : Option String
  /-- Legacy cookie `"t_pt_gid"`. -/
  tPtGid : Option String
  /-- Legacy cookie `"tbla_id"`. -/
  tblaId : Option String
  /-- The injected `window.TRC` global: `none` when the global is absent,
  otherwise the value of its `user_id` field. -/
  trcGlobal : Option JVal
deriving Repr

/-! JavaScript `String.prototype.split`.  `jsSplitCh` is the single-character
case (structural recursion); `jsSplitStr` is the general case, driven by a
fuel argument bounded by the length of the string. -/

/-- JS `s.split(sep)` for a one-character separator, over `List Char`. -/
def jsSplitCh (sep : Char) : List Char → List (List Char)
  | [] => [[]]
  | c :: rest =>
    match jsSplitCh sep rest with
    | [] => [[]]
    | p :: ps => if c = sep then [] :: p :: ps else (c :: p) :: ps

/-- JS `startsWith` over `List Char` (first argument is the pattern). -/
def startsWithList : List Char → List Char → Bool
  | [], _ => true
  | _ :: _, [] => false
  | p :: ps, c :: cs => p = c && startsWithList ps cs

/-- Fuel-driven worker for JS `s.split(sep)` with a multi-character
separator. -/
def jsSplitStrAux (sep : List Char) : Nat → List Char → List (List Char)
  | 0, s => [s]
  | _ + 1, [] => [[]]
  | fuel + 1, c :: rest =>
    if startsWithList sep (c :: rest) then
      [] :: jsSplitStrAux sep fuel ((c :: rest).drop sep.length)
    else
      match jsSplitStrAux sep fuel rest with
      | [] => [[]]
      | p :: ps => (c :: p) :: ps

/-- JS `s.split(sep)` for a non-empty separator string. -/
def jsSplitStr (sep s : List Char) : List (List Char) :=
  jsSplitStrAux sep (s.length + 1) s

namespace TaboolaAdapter

/-! Embedding of `userData` from `modules/taboolaBidAdapter.js`. -/

/-- The adapter's `userData.getCookieDataByKey`:
`const [, value = ''] = cookieData.split(`${key}=`); return value` —
the second piece of splitting on the substring `key=`, defaulting to `""`. -/
def getCookieDataByKey (cookieData key : String) : String :=
  match (jsSplitStr (key.toList ++ ['=']) cookieData.toList).get? 1 with
  | some v => String.mk v
  | none => ""

/-- The adapter's `userData.getFromLocalStorage`. -/
def getFromLocalStorage (st : StorageState) : JVal :=
  if st.hasLocalStorage && st.localStorageEnabled then
    match st.localStorageVal with
    | some s => .str s
    | none => .null
  else .undefined

/-- The adapter's `userData.getFromCookie`.  When cookies are enabled it reads
`trc_cookie_storage` and extracts the `user-id` pair; if that cookie is absent
`getCookie` yields `null` and `null.split` raises a `TypeError`, modelled as
`Except.error`. -/
def getFromCookie (st : StorageState) : Except Unit JVal :=
  if st.cookiesEnabled then
    match st.trcCookieStorage with
    | none => .error ()
    | some cookieData =>
      let userId := getCookieDataByKey cookieData "user-id"
      if userId ≠ "" then .ok (.str userId) else .ok .undefined
  else .ok .undefined

/-- The adapter's `userData.getFromTRC`: `window.TRC ? window.TRC.user_id : 0`. -/
def getFromTRC (st : StorageState) : JVal :=
  match st.trcGlobal with
  | some v => v
  | none => .num 0

/-- The adapter's `userData.getUserId`: the `||`-chain
`getFromLocalStorage() || getFromCookie() || getFromTRC()` wrapped in
`try { ... } catch { return 0 }`. -/
def getUserId (st : StorageState) : JVal :=
  let ls := getFromLocalStorage st
  if ls.truthy then ls
  else
    match getFromCookie st with
    | .error _ => .num 0
    | .ok ck => jsOr ck (getFromTRC st)

end TaboolaAdapter

namespace TaboolaIdSystem

/-! Embedding of `userData` from the Taboola user-ID submodule
(`taboolaIdSystem`). -/

/-- The submodule's `userData.getCookieDataByKey`: split the composite cookie
on `&`, keep the pairs that start with `` `${key}=` ``, and return the piece
after the first `=` of the first such pair; `undefined` when the cookie data
is falsy or no pair matches. -/
def getCookieDataByKey (cookieData key : String) : Option String :=
  if cookieData = "" then none
  else
    match (jsSplitCh '&' cookieData.toList).filter
        (fun item => startsWithList (key.toList ++ ['=']) item) with
    | [] => none
    | m :: _ =>
      match (jsSplitCh '=' m).get? 1 with
      | some v => some (String.mk v)
      | none => none

/-- The submodule's `userData.getFromLocalStorage`. -/
def getFromLocalStorage (st : StorageState) : JVal :=
  if st.hasLocalStorage && st.localStorageEnabled then
    match st.localStorageVal with
    | some s => .str s
    | none => .null
  else .undefined

/-- The legacy-cookie tail of the submodule's `getFromCookie`: probe `t_gid`,
then `t_pt_gid`, then `tbla_id`, first truthy value winning. -/
def legacyCookies (st : StorageState) : JVal :=
  match truthyOpt st.tGid with
  | some t => .str t
  | none =>
    match truthyOpt st.tPtGid with
    | some t => .str t
    | none =>
      match truthyOpt st.tblaId with
      | some t => .str t
      | none => .undefined

/-- The submodule's `userData.getFromCookie`: the composite
`trc_cookie_storage` cookie first (guarded by its own truthiness and the
truthiness of the extracted `user-id` value), then the three legacy cookies. -/
def getFromCookie (st : StorageState) : JVal :=
  if st.cookiesEnabled then
    match st.trcCookieStorage with
    | some cookieData =>
      if cookieData ≠ "" then
        match getCookieDataByKey cookieData "user-id" with
        | some userId =>
          if userId ≠ "" then .str userId else legacyCookies st
        | none => legacyCookies st
      else legacyCookies st
    | none => legacyCookies st
  else .undefined

/-- The submodule's `userData.getFromTRC`: `window.TRC.user_id` when the
global exists, `undefined` otherwise. -/
def getFromTRC (st : StorageState) : JVal :=
  match st.trcGlobal with
  | some v => v
  | none => .undefined

/-- The submodule's `userData.getUserId`:
`this.getFromLocalStorage() || this.getFromCookie() || this.getFromTRC()`
(nothing in the model can throw, so the `catch` branch is dead). -/
def getUserId (st : StorageState) : JVal :=
  jsOr (jsOr (getFromLocalStorage st) (getFromCookie st)) (getFromTRC st)

end TaboolaIdSystem

namespace ResolverSpec

/-! Spec-side model of the identity-resolution precedence, written from the
spec's four steps ("strict precedence, first non-empty result wins"), to be
compared with the code-side resolvers. -/

/-- Step 1 of the spec's precedence: the durable key-value store, when
available, with a non-empty value. -/
def durable (st : StorageState) : Option String :=
  if st.hasLocalStorage && st.localStorageEnabled then
    match st.localStorageVal with
    | some s => if s ≠ "" then some s else none
    | none => none
  else none

/-- Step 2: the `user-id` entry of the composite `trc_cookie_storage` cookie,
when non-empty. -/
def composite (st : StorageState) : Option String :=
  if st.cookiesEnabled then
    match st.trcCookieStorage with
    | some c =>
      match TaboolaIdSystem.getCookieDataByKey c "user-id" with
      | some v => if v ≠ "" then some v else none
      | none => none
    | none => none
  else none

/-- Step 3: the legacy cookies in fixed order `t_gid`, `t_pt_gid`, `tbla_id`,
first non-empty winning. -/
def legacy (st : StorageState) : Option String :=
  if st.cookiesEnabled then
    match truthyOpt st.tGid with
    | some t => some t
    | none =>
      match truthyOpt st.tPtGid with
      | some t => some t
      | none => truthyOpt st.tblaId
  else none

/-- The spec's resolution algorithm: steps 1-4 in strict precedence, falling
back to the in-page global's `user_id`. -/
def resolve (st : StorageState) : JVal :=
  match durable st with
  | some s => .str s
  | none =>
    match composite st with
    | some v => .str v
    | none =>
      match legacy st with
      | some t => .str t
      | none => TaboolaIdSystem.getFromTRC st

end ResolverSpec

/-! Percent-encoding: model of the host primitive `encodeURIComponent`
(unreserved characters kept, every other character written as the
percent-encoded bytes of its UTF-8 encoding). -/

/-- Characters `encodeURIComponent` leaves unescaped. -/
def isUnreservedURI (c : Char) : Bool :=
  (('A' ≤ c && c ≤ 'Z') || ('a' ≤ c && c ≤ 'z') || ('0' ≤ c && c ≤ '9')) ||
    c ∈ ['-', '_', '.', '!', '~', '*', '\'', '(', ')']

/-- Uppercase hexadecimal digit for a value below 16. -/
def hexDigitURI (n : Nat) : Char :=
  if n < 10 then Char.ofNat ('0'.toNat + n) else Char.ofNat ('A'.toNat + n - 10)

/-- Percent-encoding of one byte. -/
def percentByte (b : Nat) : List Char :=
  ['%', hexDigitURI (b / 16), hexDigitURI (b % 16)]

/-- UTF-8 bytes of one code point. -/
def utf8Bytes (c : Char) : List Nat :=
  let n := c.toNat
  if n < 0x80 then [n]
  else if n < 0x800 then [0xC0 + n / 64, 0x80 + n % 64]
  else if n < 0x10000 then
    [0xE0 + n / 4096, 0x80 + n / 64 % 64, 0x80 + n % 64]
  else
    [0xF0 + n / 262144, 0x80 + n / 4096 % 64, 0x80 + n / 64 % 64, 0x80 + n % 64]

/-- Model of JS `encodeURIComponent`. -/
def encodeURIComponent (s : String) : String :=
  String.mk ((s.toList.map fun c =>
    if isUnreservedURI c then [c] else (utf8Bytes c).flatMap percentByte).flatten)

namespace TaboolaIdSystem

/-! Embedding of the sync-URL builder, the user-sync call, and `decode` from
the Taboola user-ID submodule. -/

/-- The consent snapshot `gdprDataHandler.getConsentData()` may return. -/
structure GdprConsentData where
  /-- The `gdprApplies` field, an arbitrary JS value: the code tests it with
  strict equality against `true`. -/
  gdprApplies : JVal
  /-- The `consentString` field (`none` = absent). -/
  consentString : Option String
deriving Repr

/-- The consent snapshot `gppDataHandler.getConsentData()` may return. -/
structure GppConsentData where
  /-- The `gppString` field (`none` = absent). -/
  gppString : Option String
  /-- The `applicableSections` field: `none` when absent, otherwise the list
  of section numbers (possibly empty). -/
  applicableSections : Option (List Int)
deriving Repr

/-- The fixed sync endpoint `USER_SYNC_ENDPOINT`. -/
def USER_SYNC_ENDPOINT : String := "https://trc.taboola.com/sg/prebidJS/1/cm"

/-- JS string coercion of a number array (`Array.prototype.toString`:
comma-joined decimal entries), applied to `applicableSections` before
percent-encoding. -/
def sectionsToString (l : List Int) : String :=
  String.intercalate "," (l.map toString)

/-- The query parameters pushed by `buildTaboolaSyncUrl`, in source order:
`gdpr` whenever the GDPR consent object exists (value `1` only when
`gdprApplies === true`), `gdpr_consent` when the consent string is truthy,
`us_privacy` when the USP string is truthy, then `gpp` when the gpp string
is truthy and `gpp_sid` when `applicableSections` exists. -/
def syncParams (gdpr : Option GdprConsentData) (usp : Option String)
    (gpp : Option GppConsentData) : List String :=
  (match gdpr with
   | some g =>
     ["gdpr=" ++ toString (if g.gdprApplies = .bool true then (1 : Nat) else 0)] ++
       (match truthyOpt g.consentString with
        | some cs => ["gdpr_consent=" ++ encodeURIComponent cs]
        | none => [])
   | none => []) ++
  (match truthyOpt usp with
   | some u => ["us_privacy=" ++ encodeURIComponent u]
   | none => []) ++
  (match gpp with
   | some g =>
     (match truthyOpt g.gppString with
      | some gs => ["gpp=" ++ encodeURIComponent gs]
      | none => []) ++
       (match g.applicableSections with
        | some secs => ["gpp_sid=" ++ encodeURIComponent (sectionsToString secs)]
        | none => [])
   | none => [])

/-- The submodule's `buildTaboolaSyncUrl`: the fixed endpoint, with a `?`-led
`&`-joined parameter list when any parameter was pushed. -/
def buildTaboolaSyncUrl (gdpr : Option GdprConsentData) (usp : Option String)
    (gpp : Option GppConsentData) : String :=
  let params := syncParams gdpr usp gpp
  USER_SYNC_ENDPOINT ++
    (if params.length > 0 then "?" ++ String.intercalate "&" params else "")

/-- Outcome of `JSON.parse` on the sync response body, as the sync callback
code observes it: a parse exception, a parsed but falsy value (`data`
fails the `data && data.taboolaId` guard), or a parsed object carrying a
`taboolaId` field (possibly `undefined`/falsy). -/
inductive ParsedBody where
  | parseError
  | nullish
  | obj (taboolaId : JVal)
deriving DecidableEq, Repr

/-- Outcome of the `ajax` transport for the sync call. -/
inductive Transport where
  | success (body : ParsedBody)
  | failure
deriving DecidableEq, Repr

/-- The object shape `{ taboolaId: ... }` delivered to the sync callback. -/
structure SyncPayload where
  taboolaId : JVal
deriving DecidableEq, Repr

/-- The argument of one callback invocation: `none` models passing
`undefined`. -/
abbrev CallbackArg := Option SyncPayload

/-- The submodule's `callTaboolaUserSync`, projected onto the sequence of
callback invocations it performs for a given transport outcome: on a parsed
body whose `taboolaId` is truthy it delivers `{taboolaId: refreshed}`;
on parse failure, a falsy body, a falsy `taboolaId` field, or transport
error it delivers `{taboolaId: currentId}` when `currentId` is truthy and
`undefined` otherwise. -/
def callTaboolaUserSync (currentId : JVal) (t : Transport) : List CallbackArg :=
  match t with
  | .success b =>
    match b with
    | .obj tid =>
      if tid.truthy then [some ⟨tid⟩]
      else [if currentId.truthy then some ⟨currentId⟩ else none]
    | .nullish => [if currentId.truthy then some ⟨currentId⟩ else none]
    | .parseError => [if currentId.truthy then some ⟨currentId⟩ else none]
  | .failure => [if currentId.truthy then some ⟨currentId⟩ else none]

/-- The submodule's `decode`: a present `{ taboolaId: value }` exactly when
the stored value is a string other than `"0"`. -/
def decode (value : JVal) : Option SyncPayload :=
  match value with
  | .str s => if s ≠ "0" then some ⟨.str s⟩ else none
  | _ => none

end TaboolaIdSystem

namespace TaboolaAdapter

/-! Embedding of the adapter's request building and response mapping. -/

/-- The fixed auction endpoint `END_POINT_URL`. -/
def END_POINT_URL : String := "https://taboolahb.bidder.taboolasyndication.com"

/-- The fixed default currency `CURRENCY`. -/
def CURRENCY : String := "USD"

/-- The caller-supplied `params` of one bid request descriptor. -/
structure BidParams where
  publisherId : String
  tagId : String
  /-- Optional floor price (`none` = absent, defaulted to JS `null`). -/
  bidfloor : Option Int
  /-- Optional floor currency (`none` = absent, defaulted to `CURRENCY`). -/
  bidfloorcur : Option String
  /-- Optional blocked-categories list. -/
  bcat : Option (List String)
  /-- Optional blocked-advertiser-domains list. -/
  badv : Option (List String)
deriving DecidableEq, Repr

/-- One validated bid request descriptor as `buildRequests` and
`interpretResponse` consume it. -/
structure BidRequest where
  bidId : String
  /-- Ad slot sizes: ordered `[width, height]` pairs, first component the
  width and second the height. -/
  sizes : List (Int × Int)
  params : BidParams
deriving DecidableEq, Repr

/-- One `{h, w}` entry of an impression's banner size array. -/
structure Banner where
  h : Int
  w : Int
deriving DecidableEq, Repr

/-- One impression of the auction request. -/
structure Imp where
  id : Nat
  banner : List Banner
  tagid : String
  /-- `null` when the descriptor carries no floor. -/
  bidfloor : Option Int
  bidfloorcur : String
deriving DecidableEq, Repr

/-- The auction request's site descriptor (`getSiteProperties`). -/
structure Site where
  id : String
  name : String
  domain : String
  page : String
  ref : String
  /-- `publisher.id`. -/
  publisherIdField : String
  /-- `content.language`. -/
  contentLanguage : String
deriving DecidableEq, Repr

/-- The auction request's device descriptor. -/
structure Device where
  ua : String
deriving DecidableEq, Repr

/-- The `user.ext` object. -/
structure UserExt where
  consent : Option String
deriving DecidableEq, Repr

/-- The auction request's user descriptor: `buyeruid` holds the raw resolver
result (a `JVal`). -/
structure User where
  buyeruid : JVal
  ext : UserExt
deriving DecidableEq, Repr

/-- The `regs.ext` object. -/
structure RegsExt where
  gdpr : Option Nat
  us_privacy : Option String
deriving DecidableEq, Repr

/-- The auction request's regulatory descriptor. -/
structure Regs where
  coppa : Nat
  ext : RegsExt
deriving DecidableEq, Repr

/-- The wire-format auction request assembled by `buildRequests`. -/
structure AuctionRequest where
  id : String
  imp : List Imp
  site : Site
  device : Device
  /-- `source.fd`. -/
  sourceFd : Nat
  tmax : Nat
  bcat : List String
  badv : List String
  user : User
  regs : Regs
deriving DecidableEq, Repr

/-- The `refererInfo` of the bidder request. -/
structure RefererInfo where
  canonicalUrl : Option String
  referer : Option String
deriving DecidableEq, Repr

/-- The adapter-side GDPR consent object (`bidderRequest.gdprConsent`): the
adapter tests `gdprApplies` for truthiness. -/
structure AdapterGdprConsent where
  gdprApplies : JVal
  consentString : Option String
deriving DecidableEq, Repr

/-- The ambient browser/config environment `buildRequests` reads. -/
structure Env where
  storage : StorageState
  /-- `config.getConfig('pageUrl')`. -/
  configPageUrl : Option String
  /-- `getWindowTop().location.href`; `none` models the cross-frame access
  throwing. -/
  topHref : Option String
  /-- `getWindowSelf().location.href`. -/
  selfHref : String
  /-- `getWindowTop().document.referrer`; `none` models the access throwing. -/
  topReferrer : Option String
  /-- `getWindowSelf().document.referrer`. -/
  selfReferrer : String
  /-- `navigator.userAgent`. -/
  userAgent : String
  /-- `window.location.host`. -/
  locationHost : String
  /-- `navigator.language`. -/
  language : String
  /-- `config.getConfig('coppa')`. -/
  coppaConfig : Bool
deriving Repr

/-- `internal.getPageUrl`: the canonical URL when truthy, else the configured
page URL, else the top (or, on a cross-frame throw, own) location. -/
def getPageUrl (ri : RefererInfo) (env : Env) : String :=
  match truthyOpt ri.canonicalUrl with
  | some c => c
  | none =>
    match truthyOpt env.configPageUrl with
    | some p => p
    | none => env.topHref.getD env.selfHref

/-- `internal.getReferrer`: the bidder request's referer when truthy, else
the top (or own) document referrer. -/
def getReferrer (ri : RefererInfo) (env : Env) : String :=
  match truthyOpt ri.referer with
  | some r => r
  | none => env.topReferrer.getD env.selfReferrer

/-- `getSiteProperties`: the site descriptor, built from one `params` object
and the referer info. -/
def getSiteProperties (params : BidParams) (ri : RefererInfo) (env : Env) : Site :=
  { id := params.publisherId
    name := params.publisherId
    domain := env.locationHost
    page := getPageUrl ri env
    ref := getReferrer ri env
    publisherIdField := params.publisherId
    contentLanguage := env.language }

/-- `getSizes`: each size array `[size[0], size[1]]` becomes the banner entry
`{h: size[0], w: size[1]}`. -/
def getSizes (sizes : List (Int × Int)) : List Banner :=
  sizes.map fun size => { h := size.1, w := size.2 }

/-- `getBanners`. -/
def getBanners (bid : BidRequest) : List Banner :=
  getSizes bid.sizes

/-- `getImps`: one impression per descriptor, ids assigned sequentially from
1 in batch order; floor defaults to `null`, floor currency to `CURRENCY`. -/
def getImps (validBidRequests : List BidRequest) : List Imp :=
  validBidRequests.enum.map fun p =>
    { id := p.1 + 1
      banner := getBanners p.2
      tagid := p.2.params.tagId
      bidfloor := p.2.params.bidfloor
      bidfloorcur := p.2.params.bidfloorcur.getD CURRENCY }

/-- The `bidderRequest` argument of `buildRequests`. -/
structure BidderRequest where
  auctionId : String
  timeout : Nat
  refererInfo : RefererInfo
  gdprConsent : Option AdapterGdprConsent
  uspConsent : Option String
deriving Repr

/-- The request object `buildRequests` returns. -/
structure ServerRequest where
  url : String
  method : String
  data : AuctionRequest
  bids : List BidRequest
deriving Repr

/-- `spec.buildRequests`: destructures the first descriptor (throwing on an
empty batch, modelled as `Except.error`), builds the impressions from the
whole batch, and takes the endpoint's `pid` parameter, `bcat`, `badv` and
the site descriptor from the first descriptor's params. -/
def buildRequests (validBidRequests : List BidRequest) (br : BidderRequest)
    (env : Env) : Except Unit ServerRequest :=
  match validBidRequests with
  | [] => .error ()
  | bidRequest :: _ =>
    let gdprApplies : JVal :=
      match br.gdprConsent with
      | some g => g.gdprApplies
      | none => .undefined
    let user : User :=
      { buyeruid := getUserId env.storage
        ext :=
          { consent :=
              if gdprApplies.truthy then
                match br.gdprConsent with
                | some g => g.consentString
                | none => none
              else none } }
    let regs : Regs :=
      { coppa := if env.coppaConfig then 1 else 0
        ext :=
          { gdpr := if gdprApplies.truthy then some 1 else none
            us_privacy :=
              match truthyOpt br.uspConsent with
              | some u => some u
              | none => none } }
    .ok
      { url := String.intercalate "?pid="
          [END_POINT_URL, bidRequest.params.publisherId]
        method := "POST"
        data :=
          { id := br.auctionId
            imp := getImps validBidRequests
            site := getSiteProperties bidRequest.params br.refererInfo env
            device := { ua := env.userAgent }
            sourceFd := 1
            tmax := br.timeout
            bcat := bidRequest.params.bcat.getD []
            badv := bidRequest.params.badv.getD []
            user := user
            regs := regs }
        bids := validBidRequests }

/-- JSON serialization of the `buyeruid` field: `JSON.stringify` drops a
field holding `undefined` and keeps every other value (including `null` and
`0`). -/
def serializedBuyeruid (u : User) : Option JVal :=
  match u.buyeruid with
  | .undefined => none
  | v => some v

/-- One entry of a seat's `bid` array in the auction response. -/
structure BidEntry where
  price : Option Int
  crid : Option String
  adm : Option String
  w : Option Int
  h : Option Int
  adomain : Option (List String)
  /-- An optional `meta` object already present on the entry. -/
  metaAdvertiserDomains : Option (List String)
deriving DecidableEq, Repr

/-- The `meta` object of a normalized bid result. -/
structure BidMeta where
  advertiserDomains : Option (List String)
deriving DecidableEq, Repr

/-- One normalized bid result produced by `getBid`. -/
structure NormalizedBid where
  requestId : String
  ttl : Nat
  mediaType : String
  cpm : Option Int
  creativeId : Option String
  currency : Option String
  ad : Option String
  width : Option Int
  height : Option Int
  meta : BidMeta
  netRevenue : Bool
deriving DecidableEq, Repr

/-- One seat of the auction response (`seatbid[i]`): its `bid` array may be
absent. -/
structure SeatBid where
  bid : Option (List BidEntry)
deriving DecidableEq, Repr

/-- The `body.bidResponse` object: its `seatbid` array may be absent. -/
structure BidResponseObj where
  seatbid : Option (List SeatBid)
  cur : Option String
deriving DecidableEq, Repr

/-- The response body. -/
structure ResponseBody where
  bidResponse : Option BidResponseObj
deriving DecidableEq, Repr

/-- The `serverResponse` argument of `interpretResponse`. -/
structure ServerResponse where
  body : Option ResponseBody
deriving DecidableEq, Repr

/-- `getBidResponses`: yields the first seat's bid list and the currency.
The malformed-body early returns yield the empty array, whose destructuring
gives `(none, none)` here; accessing `seatbid.length` when `seatbid` is
absent raises a `TypeError`, modelled as `Except.error`. -/
def getBidResponses (r : ServerResponse) :
    Except Unit (Option (List BidEntry) × Option String) :=
  match r.body with
  | none => .ok (none, none)
  | some body =>
    match body.bidResponse with
    | none => .ok (none, none)
    | some br =>
      match br.seatbid with
      | none => .error ()
      | some seatbids =>
        match seatbids with
        | [] => .ok (none, none)
        | seat :: _ =>
          match seat.bid with
          | none => .ok (none, none)
          | some bs => .ok (some bs, br.cur)

/-- `getBid`: `undefined` when there is no positional bid entry, otherwise
the normalized result, with the advertiser-domain list merged into `meta`
only when present and non-empty. -/
def getBid (requestId : String) (currency : Option String)
    (bidResponse : Option BidEntry) : Option NormalizedBid :=
  match bidResponse with
  | none => none
  | some e =>
    some
      { requestId := requestId
        ttl := 360
        mediaType := "banner"
        cpm := e.price
        creativeId := e.crid
        currency := currency
        ad := e.adm
        width := e.w
        height := e.h
        meta :=
          { advertiserDomains :=
              match e.adomain with
              | some l => if l.length > 0 then some l else e.metaAdvertiserDomains
              | none => e.metaAdvertiserDomains }
        netRevenue := false }

/-- `spec.interpretResponse`: early empty result when `bids` is absent or
the response carries no usable bid list, otherwise the positional
index-by-index mapping `bids.map((bid, id) => getBid(bid.bidId, currency,
bidResponses[id])).filter(Boolean)`. -/
def interpretResponse (serverResponse : ServerResponse)
    (bids : Option (List BidRequest)) : Except Unit (List NormalizedBid) :=
  match bids with
  | none => .ok []
  | some bs =>
    match getBidResponses serverResponse with
    | .error e => .error e
    | .ok (none, _) => .ok []
    | .ok (some bidResponses, currency) =>
      .ok ((bs.enum.map fun p =>
        getBid p.2.bidId currency (bidResponses.get? p.1)).filterMap id)

end TaboolaAdapter

/-! Helper lemmas about the JS split model. -/

/-- Splitting never yields an empty list of pieces. -/
theorem jsSplitCh_ne_nil (sep : Char) (l : List Char) : jsSplitCh sep l ≠ [] := by
  cases l with
  | nil => simp [jsSplitCh]
  | cons c rest =>
    simp only [jsSplitCh]
    cases jsSplitCh sep rest with
    | nil => simp
    | cons p ps =>
      by_cases h : c = sep <;> simp [h]

/-- A separator-free string splits into itself. -/
theorem jsSplitCh_not_mem (sep : Char) (l : List Char) (h : sep ∉ l) :
    jsSplitCh sep l = [l] := by
  induction l with
  | nil => rfl
  | cons c rest ih =>
    have hc : c ≠ sep := fun hcc => h (hcc ▸ List.mem_cons_self c rest)
    have hr : sep ∉ rest := fun hm => h (List.mem_cons_of_mem c hm)
    simp only [jsSplitCh, ih hr]
    simp [hc]

/-- Splitting at the first separator occurrence: a separator-free ledger
followed by the separator peels off as the first piece. -/
theorem jsSplitCh_append (sep : Char) (a b : List Char) (h : sep ∉ a) :
    jsSplitCh sep (a ++ sep :: b) = a :: jsSplitCh sep b := by
  induction a with
  | nil =>
    simp only [List.nil_append, jsSplitCh]
    cases hb : jsSplitCh sep b with
    | nil => exact absurd hb (jsSplitCh_ne_nil sep b)
    | cons p ps => simp
  | cons c rest ih =>
    have hc : c ≠ sep := fun hcc => h (hcc ▸ List.mem_cons_self c rest)
    have hr : sep ∉ rest := fun hm => h (List.mem_cons_of_mem c hm)
    simp only [List.cons_append, jsSplitCh, ih hr]
    simp [hc]
    rw [ih hr]

/-- `startsWith` holds on any extension of the pattern. -/
theorem startsWithList_append (p t : List Char) : startsWithList p (p ++ t) = true := by
  induction p with
  | nil => rfl
  | cons c ps ih => simp [startsWithList, ih]

/-! Theorems for the claims, in claim order. -/

def cookiePre : List Char := "a=1&user-id=".toList

def cookiePost : List Char := "&b=3".toList

/-- Claim C3 (corrected form): the id-submodule helper extracts exactly the
sought value for every cookie string of the shape `"a=1&user-id=<v>&b=3"`
(the key not being the first pair), yields an absent result when the key is
missing, and is not fooled by a substring occurrence such as `xuser-id=`;
the bid-adapter helper instead splits on the first substring occurrence of
`"user-id="` and returns the whole remainder `"42&b=3"` (and the empty
string when the key is absent). -/
theorem cookie_helper_characterization :
    (∀ v : List Char, '&' ∉ v → '=' ∉ v →
      TaboolaIdSystem.getCookieDataByKey
        (String.mk (cookiePre ++ v ++ cookiePost)) "user-id" =
          some (String.mk v)) ∧
    TaboolaIdSystem.getCookieDataByKey "a=1&b=3" "user-id" = none ∧
    TaboolaIdSystem.getCookieDataByKey "xuser-id=99&b=3" "user-id" = none ∧
    TaboolaAdapter.getCookieDataByKey "a=1&b=3" "user-id" = "" := by
  refine ⟨?_, by decide, by decide, by decide⟩
  intro v hamp heq
  have hok : String.mk (cookiePre ++ v ++ cookiePost) ≠ "" := by
    intro hcontra
    have hdata : cookiePre ++ v ++ cookiePost = [] := congrArg String.data hcontra
    simp [cookiePre] at hdata
  rw [TaboolaIdSystem.getCookieDataByKey, if_neg hok]
  have htl : (String.mk (cookiePre ++ v ++ cookiePost)).toList
      = cookiePre ++ v ++ cookiePost := rfl
  rw [htl]
  have hshape : cookiePre ++ v ++ cookiePost =
      ("a=1".toList ++ '&' :: (("user-id=".toList ++ v) ++ '&' :: "b=3".toList)) := by
    simp [cookiePre, cookiePost]
  rw [hshape, jsSplitCh_append '&' _ _ (by decide),
    jsSplitCh_append '&' _ _ ?hnot,
    jsSplitCh_not_mem '&' _ (by decide)]
  case hnot =>
    intro hmem
    rcases List.mem_append.mp hmem with h1 | h2
    · revert h1; decide
    · exact hamp h2
  have hkey : ("user-id" : String).toList ++ ['='] = "user-id=".toList := by decide
  rw [hkey]
  have h1 : startsWithList "user-id=".toList "a=1".toList = false := by decide
  have h2 : startsWithList "user-id=".toList ("user-id=".toList ++ v) = true :=
    startsWithList_append _ _
  have h3 : startsWithList "user-id=".toList "b=3".toList = false := by decide
  simp only [List.filter, h1, h2, h3]
  have hsplit2 : "user-id=".toList ++ v = "user-id".toList ++ '=' :: v := by
    simp
  rw [hsplit2, jsSplitCh_append '=' _ _ (by decide),
    jsSplitCh_not_mem '=' v heq]
  rfl

/-- Claim C3 witness: the submodule helper at the concrete value `"42"`. -/
theorem cookie_helper_witness :
    TaboolaIdSystem.getCookieDataByKey
      (String.mk (cookiePre ++ ['4', '2'] ++ cookiePost)) "user-id" =
        some (String.mk ['4', '2']) :=
  cookie_helper_characterization.1 ['4', '2'] (by decide) (by decide)

/-- Claim C3 counterexample: on `"a=1&user-id=42&b=3"` the bid-adapter copy
of the helper does not return `"42"`: it returns the entire remainder after
the first occurrence of the substring `"user-id="`, and it also matches a
substring occurrence such as `"xuser-id=99"`. -/
theorem cookie_helper_adapter_disagrees :
    TaboolaAdapter.getCookieDataByKey "a=1&user-id=42&b=3" "user-id" = "42&b=3" ∧
    TaboolaAdapter.getCookieDataByKey "a=1&user-id=42&b=3" "user-id" ≠ "42" ∧
    TaboolaAdapter.getCookieDataByKey "xuser-id=99" "user-id" = "99" := by
  refine ⟨by decide, by decide, by decide⟩

/-- Claim C4 (corrected form): for every transport outcome the sync callback
is invoked exactly once; a parsed body with a truthy refreshed id delivers
`{taboolaId: refreshed}`; every degraded path (transport error, parse
failure, falsy body, falsy id field) delivers `{taboolaId: lastKnownId}`
when `lastKnownId` is truthy — which includes the string `"0"` — and
`undefined` otherwise. -/
theorem sync_callback_once_and_degraded :
    ∀ (currentId : JVal) (t : TaboolaIdSystem.Transport),
      (TaboolaIdSystem.callTaboolaUserSync currentId t).length = 1 ∧
      (∀ tid, t = .success (.obj tid) → tid.truthy = true →
        TaboolaIdSystem.callTaboolaUserSync currentId t = [some ⟨tid⟩]) ∧
      ((t = .failure ∨ t = .success .parseError ∨ t = .success .nullish ∨
          ∃ tid, t = .success (.obj tid) ∧ tid.truthy = false) →
        TaboolaIdSystem.callTaboolaUserSync currentId t =
          [if currentId.truthy then some ⟨currentId⟩ else none]) := by
  intro currentId t
  refine ⟨?_, ?_, ?_⟩
  · cases t with
    | failure => rfl
    | success b =>
      cases b with
      | parseError => rfl
      | nullish => rfl
      | obj tid =>
        by_cases h : tid.truthy <;>
          simp [TaboolaIdSystem.callTaboolaUserSync, h]
  · rintro tid rfl htr
    simp [TaboolaIdSystem.callTaboolaUserSync, htr]
  · rintro (rfl | rfl | rfl | ⟨tid, rfl, htid⟩)
    · rfl
    · rfl
    · rfl
    · simp [TaboolaIdSystem.callTaboolaUserSync, htid]

/-- Claim C4 witness: concrete uses of the callback theorem — a transport
error with a truthy last-known id, a transport error with no last-known id,
and a successful refresh. -/
theorem sync_callback_witness :
    TaboolaIdSystem.callTaboolaUserSync (.str "user1") .failure =
      [some ⟨.str "user1"⟩] ∧
    TaboolaIdSystem.callTaboolaUserSync .undefined .failure = [none] ∧
    TaboolaIdSystem.callTaboolaUserSync .undefined (.success (.obj (.str "fresh"))) =
      [some ⟨.str "fresh"⟩] := by
  refine ⟨?_, ?_, ?_⟩
  · rw [(sync_callback_once_and_degraded (.str "user1") .failure).2.2 (Or.inl rfl)]
    rfl
  · rw [(sync_callback_once_and_degraded .undefined .failure).2.2 (Or.inl rfl)]
    rfl
  · exact (sync_callback_once_and_degraded .undefined _).2.1 (.str "fresh") rfl (by decide)

/-- Claim C4 counterexample: the code decides the degraded delivery by JS
truthiness, so the zero-sentinel string `"0"` — which the spec's data model
and `decode` treat as "no identifier" — is delivered as `{taboolaId: "0"}`
on a transport error rather than as `undefined`. -/
theorem sync_callback_zero_string_delivered :
    TaboolaIdSystem.callTaboolaUserSync (.str "0") .failure =
      [some ⟨.str "0"⟩] ∧
    TaboolaIdSystem.callTaboolaUserSync (.str "0") .failure ≠ [none] := by
  refine ⟨by decide, by decide⟩

/-- Claim C5 (corrected form): `decode` yields no identifier exactly for the
string `"0"` and for non-string stored values; every other string — the
empty string included — yields a present `{taboolaId: value}` object. -/
theorem decode_characterization :
    TaboolaIdSystem.decode (.str "0") = none ∧
    (∀ v : JVal, (∀ s, v ≠ .str s) → TaboolaIdSystem.decode v = none) ∧
    (∀ s : String, s ≠ "0" → TaboolaIdSystem.decode (.str s) = some ⟨.str s⟩) := by
  refine ⟨by decide, ?_, ?_⟩
  · intro v h
    cases v with
    | str s => exact absurd rfl (h s)
    | undefined => rfl
    | null => rfl
    | num n => rfl
    | bool b => rfl
  · intro s hs
    simp [TaboolaIdSystem.decode, hs]

/-- Claim C5 witness: `decode("abc123")` yields `{taboolaId: "abc123"}`. -/
theorem decode_witness :
    TaboolaIdSystem.decode (.str "abc123") = some ⟨.str "abc123"⟩ :=
  decode_characterization.2.2 "abc123" (by decide)

/-- Claim C5 counterexample: `decode("")` does not yield "no identifier" —
the empty string passes the `typeof value === 'string' && value !== '0'`
guard and decodes to a present `{taboolaId: ""}` object. -/
theorem decode_empty_string_present :
    TaboolaIdSystem.decode (.str "") = some ⟨.str ""⟩ ∧
    TaboolaIdSystem.decode (.str "") ≠ none := by
  refine ⟨by decide, by decide⟩

/-- Claim C9 (code bug): `getSizes` maps the size pair `[300, 250]` — width
300, height 250 — to the banner entry `{h: 300, w: 250}`: the `h` field
receives the pair's width and the `w` field its height, the opposite of the
claimed (and conventional) assignment. -/
theorem getSizes_swaps_width_height :
    TaboolaAdapter.getSizes [(300, 250)] =
      [{ h := 300, w := 250 : TaboolaAdapter.Banner }] ∧
    (TaboolaAdapter.getSizes [(300, 250)]).map TaboolaAdapter.Banner.w = [250] ∧
    (TaboolaAdapter.getSizes [(300, 250)]).map TaboolaAdapter.Banner.h = [300] := by
  refine ⟨rfl, rfl, rfl⟩

namespace SyncUrlSpec

/-! Spec-side model of the sync-URL parameter list, written from the claim's
conditions (with the amended `gpp_sid` condition: present applicable-sections
value), to be compared with the code-side builder. -/

/-- The claimed parameter list: `gdpr` whenever the consent object exists
(1 only for a strictly-`true` applies flag), `gdpr_consent` only for a
non-empty consent string, `us_privacy` only when present and non-empty,
`gpp` only for a non-empty gpp string, `gpp_sid` whenever the
applicable-sections value is present, in exactly this order. -/
def params (gdpr : Option TaboolaIdSystem.GdprConsentData) (usp : Option String)
    (gpp : Option TaboolaIdSystem.GppConsentData) : List String :=
  (match gdpr with
   | some g =>
     ["gdpr=" ++ toString (if g.gdprApplies = .bool true then (1 : Nat) else 0)]
   | none => []) ++
  (match gdpr with
   | some g =>
     match g.consentString with
     | some cs =>
       if cs ≠ "" then ["gdpr_consent=" ++ encodeURIComponent cs] else []
     | none => []
   | none => []) ++
  (match usp with
   | some u => if u ≠ "" then ["us_privacy=" ++ encodeURIComponent u] else []
   | none => []) ++
  (match gpp with
   | some g =>
     match g.gppString with
     | some gs => if gs ≠ "" then ["gpp=" ++ encodeURIComponent gs] else []
     | none => []
   | none => []) ++
  (match gpp with
   | some g =>
     match g.applicableSections with
     | some secs =>
       ["gpp_sid=" ++ encodeURIComponent (TaboolaIdSystem.sectionsToString secs)]
     | none => []
   | none => [])

end SyncUrlSpec

/-- The code-side parameter list coincides with the spec-side model of the
amended claim. -/
theorem syncParams_eq_spec (gdpr : Option TaboolaIdSystem.GdprConsentData)
    (usp : Option String) (gpp : Option TaboolaIdSystem.GppConsentData) :
    TaboolaIdSystem.syncParams gdpr usp gpp = SyncUrlSpec.params gdpr usp gpp := by
  unfold TaboolaIdSystem.syncParams SyncUrlSpec.params truthyOpt
  rcases gdpr with - | ⟨ga, gcs⟩ <;> rcases usp with - | u <;>
    rcases gpp with - | ⟨ggs, gsecs⟩ <;>
  all_goals (
    (try rcases gcs with - | cs) <;>
    (try rcases ggs with - | gs) <;>
    (try rcases gsecs with - | secs) <;>
    (try by_cases hcs : cs = "") <;>
    (try by_cases hu : u = "") <;>
    (try by_cases hgs : gs = "") <;>
    (try simp_all [List.append_assoc]))

/-- Claim C8 (corrected form): the sync URL is the fixed endpoint followed,
when any parameter applies, by `?` and the `&`-joined parameters in the
order `gdpr`, `gdpr_consent`, `us_privacy`, `gpp`, `gpp_sid`, under the
claimed conditions except that `gpp_sid` is appended whenever the
applicable-sections value is present — including an empty list, which
yields an empty `gpp_sid=` value. -/
theorem buildTaboolaSyncUrl_spec :
    ∀ (gdpr : Option TaboolaIdSystem.GdprConsentData) (usp : Option String)
      (gpp : Option TaboolaIdSystem.GppConsentData),
      TaboolaIdSystem.buildTaboolaSyncUrl gdpr usp gpp =
        TaboolaIdSystem.USER_SYNC_ENDPOINT ++
          (match SyncUrlSpec.params gdpr usp gpp with
           | [] => ""
           | ps => "?" ++ String.intercalate "&" ps) := by
  intro gdpr usp gpp
  unfold TaboolaIdSystem.buildTaboolaSyncUrl
  rw [syncParams_eq_spec]
  cases h : SyncUrlSpec.params gdpr usp gpp with
  | nil => simp
  | cons p ps => simp

/-- Claim C8 counterexample: with only a GPP consent object whose
`applicableSections` is the empty list, the code appends `gpp_sid=` with an
empty value — the claim's "only when that list is non-empty" fails. -/
theorem syncUrl_empty_sections_appended :
    TaboolaIdSystem.buildTaboolaSyncUrl none none
        (some { gppString := none, applicableSections := some [] }) =
      "https://trc.taboola.com/sg/prebidJS/1/cm?gpp_sid=" ∧
    TaboolaIdSystem.buildTaboolaSyncUrl none none
        (some { gppString := none, applicableSections := some [] }) ≠
      TaboolaIdSystem.USER_SYNC_ENDPOINT := by
  refine ⟨by decide, by decide⟩

/-! Lemmas relating the id-submodule resolver to the spec-side precedence
model. -/

/-- A present durable-store result forces the submodule's local-storage read
to yield exactly that (non-empty) string. -/
theorem durable_some {st : StorageState} {s : String}
    (h : ResolverSpec.durable st = some s) :
    TaboolaIdSystem.getFromLocalStorage st = .str s ∧ s ≠ "" := by
  unfold ResolverSpec.durable at h
  unfold TaboolaIdSystem.getFromLocalStorage
  cases hb : (st.hasLocalStorage && st.localStorageEnabled) with
  | false => simp [hb] at h
  | true =>
    simp only [hb, if_true] at h ⊢
    cases hv : st.localStorageVal with
    | none => simp [hv] at h
    | some t =>
      simp only [hv] at h ⊢
      by_cases ht : t = ""
      · simp [ht] at h
      · simp [ht] at h
        exact ⟨by rw [h], h ▸ ht⟩

/-- An absent durable-store result forces the submodule's local-storage read
to be falsy. -/
theorem durable_none {st : StorageState}
    (h : ResolverSpec.durable st = none) :
    (TaboolaIdSystem.getFromLocalStorage st).truthy = false := by
  unfold ResolverSpec.durable at h
  unfold TaboolaIdSystem.getFromLocalStorage
  cases hb : (st.hasLocalStorage && st.localStorageEnabled) with
  | false => simp [hb, JVal.truthy]
  | true =>
    simp only [hb, if_true] at h ⊢
    cases hv : st.localStorageVal with
    | none => simp [JVal.truthy]
    | some t =>
      simp only [hv] at h ⊢
      by_cases ht : t = ""
      · simp [ht, JVal.truthy]
      · simp [ht] at h

/-- A present composite-cookie extraction forces the submodule's cookie read
to yield exactly that (non-empty) string. -/
theorem composite_some {st : StorageState} {v : String}
    (h : ResolverSpec.composite st = some v) :
    TaboolaIdSystem.getFromCookie st = .str v ∧ v ≠ "" := by
  unfold ResolverSpec.composite at h
  unfold TaboolaIdSystem.getFromCookie
  cases hb : st.cookiesEnabled with
  | false => simp [hb] at h
  | true =>
    simp only [hb, if_true] at h ⊢
    cases hcd : st.trcCookieStorage with
    | none => simp [hcd] at h
    | some c =>
      simp only [hcd] at h ⊢
      cases hx : TaboolaIdSystem.getCookieDataByKey c "user-id" with
      | none => simp [hx] at h
      | some u =>
        simp only [hx] at h ⊢
        by_cases hu : u = ""
        · simp [hu] at h
        · rw [if_pos hu] at h
          injection h with h
          have hc : c ≠ "" := by
            intro hceq
            rw [hceq] at hx
            simp [TaboolaIdSystem.getCookieDataByKey] at hx
          subst h
          simp [hc, hu]

/-- An absent composite-cookie extraction sends the submodule's cookie read
to the legacy-cookie chain (or to `undefined` when cookies are disabled). -/
theorem composite_none {st : StorageState}
    (h : ResolverSpec.composite st = none) :
    TaboolaIdSystem.getFromCookie st =
      (if st.cookiesEnabled then TaboolaIdSystem.legacyCookies st else .undefined) := by
  unfold ResolverSpec.composite at h
  unfold TaboolaIdSystem.getFromCookie
  cases hb : st.cookiesEnabled with
  | false => simp
  | true =>
    simp only [hb, if_true] at h ⊢
    cases hcd : st.trcCookieStorage with
    | none => simp
    | some c =>
      simp only [hcd] at h ⊢
      by_cases hc : c = ""
      · simp [hc]
      · simp only [hc, if_neg, ne_eq, not_false_eq_true, if_true]
        cases hx : TaboolaIdSystem.getCookieDataByKey c "user-id" with
        | none => simp
        | some u =>
          simp only [hx] at h
          by_cases hu : u = ""
          · simp [hu]
          · simp [hu] at h

/-- A present legacy-cookie result forces the legacy chain to yield exactly
that (non-empty) string, with cookies enabled. -/
theorem legacy_some {st : StorageState} {t : String}
    (h : ResolverSpec.legacy st = some t) :
    st.cookiesEnabled = true ∧ TaboolaIdSystem.legacyCookies st = .str t ∧
      t ≠ "" := by
  unfold ResolverSpec.legacy at h
  unfold TaboolaIdSystem.legacyCookies
  cases hb : st.cookiesEnabled with
  | false => simp [hb] at h
  | true =>
    simp only [hb, if_true] at h
    refine ⟨rfl, ?_⟩
    cases h1 : truthyOpt st.tGid with
    | some u =>
      simp only [h1] at h ⊢
      cases h
      unfold truthyOpt at h1
      cases hg : st.tGid with
      | none => simp [hg] at h1
      | some g =>
        simp only [hg] at h1
        by_cases hge : g = ""
        · simp [hge] at h1
        · simp [hge] at h1
          exact ⟨rfl, h1 ▸ hge⟩
    | none =>
      simp only [h1] at h ⊢
      cases h2 : truthyOpt st.tPtGid with
      | some u =>
        simp only [h2] at h ⊢
        cases h
        unfold truthyOpt at h2
        cases hg : st.tPtGid with
        | none => simp [hg] at h2
        | some g =>
          simp only [hg] at h2
          by_cases hge : g = ""
          · simp [hge] at h2
          · simp [hge] at h2
            exact ⟨rfl, h2 ▸ hge⟩
      | none =>
        simp only [h2] at h ⊢
        unfold truthyOpt at h ⊢
        cases hg : st.tblaId with
        | none => simp [hg] at h
        | some g =>
          simp only [hg] at h ⊢
          by_cases hge : g = ""
          · simp [hge] at h
          · simp [hge] at h ⊢
            exact ⟨by rw [h], h ▸ hge⟩

/-- An absent legacy-cookie result (with cookies enabled) forces the legacy
chain to yield `undefined`. -/
theorem legacy_none {st : StorageState} (hb : st.cookiesEnabled = true)
    (h : ResolverSpec.legacy st = none) :
    TaboolaIdSystem.legacyCookies st = .undefined := by
  unfold ResolverSpec.legacy at h
  unfold TaboolaIdSystem.legacyCookies
  simp only [hb, if_true] at h
  cases h1 : truthyOpt st.tGid with
  | some u => simp [h1] at h
  | none =>
    simp only [h1] at h ⊢
    cases h2 : truthyOpt st.tPtGid with
    | some u => simp [h2] at h
    | none =>
      simp only [h2] at h ⊢
      rw [h]

/-- Claim C2 (corrected form): the id-submodule resolver agrees with the
spec's four-step precedence — durable store first, then the composite
cookie's `user-id` entry, then the legacy cookies `t_gid`, `t_pt_gid`,
`tbla_id` in order, then the in-page global — on every storage state. -/
theorem resolver_precedence_spec :
    ∀ st : StorageState, TaboolaIdSystem.getUserId st = ResolverSpec.resolve st := by
  intro st
  unfold TaboolaIdSystem.getUserId ResolverSpec.resolve jsOr
  cases hd : ResolverSpec.durable st with
  | some s =>
    obtain ⟨hls, hs⟩ := durable_some hd
    rw [hls]
    simp [JVal.truthy, hs]
  | none =>
    have hf := durable_none hd
    simp only [hf, if_false, Bool.false_eq_true]
    cases hc : ResolverSpec.composite st with
    | some v =>
      obtain ⟨hck, hv⟩ := composite_some hc
      rw [hck]
      simp [JVal.truthy, hv]
    | none =>
      rw [composite_none hc]
      cases hb : st.cookiesEnabled with
      | false =>
        have hl : ResolverSpec.legacy st = none := by
          unfold ResolverSpec.legacy
          simp [hb]
        simp [hl, JVal.truthy]
      | true =>
        cases hl : ResolverSpec.legacy st with
        | some t =>
          obtain ⟨-, hlc, ht⟩ := legacy_some hl
          simp only [if_true]
          rw [hlc]
          simp [JVal.truthy, ht]
        | none =>
          rw [legacy_none hb hl]
          simp [JVal.truthy]

/-- A storage state in which only the legacy cookie `t_gid` holds a value:
local storage is unavailable and the composite cookie is absent. -/
def legacyOnlyState : StorageState :=
  { hasLocalStorage := false
    localStorageEnabled := false
    localStorageVal := none
    cookiesEnabled := true
    trcCookieStorage := none
    tGid := some "legacy-id"
    tPtGid := none
    tblaId := none
    trcGlobal := none }

/-- Claim C2 counterexample: on the legacy-cookie-only state the claimed
precedence does not hold at the bid-adapter call site — the adapter never
probes `t_gid`/`t_pt_gid`/`tbla_id` (its composite-cookie read throws and is
caught, yielding the 0 sentinel), while the id-submodule resolver returns
the `t_gid` value. -/
theorem resolver_adapter_disagrees :
    TaboolaIdSystem.getUserId legacyOnlyState = .str "legacy-id" ∧
    TaboolaAdapter.getUserId legacyOnlyState = .num 0 ∧
    TaboolaAdapter.getUserId legacyOnlyState ≠ .str "legacy-id" := by
  refine ⟨by decide, by decide, by decide⟩

/-! Positional reconciliation: the index-by-index join of the original batch
with the first seat's bid list, used to characterize `interpretResponse`. -/

/-- Structural form of the positional join: the i-th descriptor receives the
i-th bid entry, descriptors beyond the bid list are dropped. -/
def positionalBids (cur : Option String) :
    List TaboolaAdapter.BidRequest → List TaboolaAdapter.BidEntry →
      List TaboolaAdapter.NormalizedBid
  | [], _ => []
  | _ :: _, [] => []
  | b :: bs, e :: es =>
    match TaboolaAdapter.getBid b.bidId cur (some e) with
    | some nb => nb :: positionalBids cur bs es
    | none => positionalBids cur bs es

/-- `getBid` on a present entry always yields a result carrying the given
request id. -/
theorem getBid_some (rid : String) (cur : Option String)
    (e : TaboolaAdapter.BidEntry) :
    ∃ nb, TaboolaAdapter.getBid rid cur (some e) = some nb ∧
      nb.requestId = rid :=
  ⟨_, rfl, rfl⟩

/-- The positional join of any batch with an empty bid list is empty. -/
theorem positionalBids_nil (cur : Option String)
    (bs : List TaboolaAdapter.BidRequest) : positionalBids cur bs [] = [] := by
  cases bs <;> rfl

/-- An out-of-range index makes `drop` empty. -/
theorem drop_of_getq_none {α : Type} :
    ∀ (l : List α) (n : Nat), l.get? n = none → l.drop n = [] := by
  intro l
  induction l with
  | nil => intro n _; simp
  | cons a l ih =>
    intro n h
    cases n with
    | zero => simp at h
    | succ m => simpa using ih m (by simpa using h)

/-- An in-range index splits `drop` at that element. -/
theorem drop_of_getq_some {α : Type} :
    ∀ (l : List α) (n : Nat) (a : α),
      l.get? n = some a → l.drop n = a :: l.drop (n + 1) := by
  intro l
  induction l with
  | nil => intro n a h; simp at h
  | cons x l ih =>
    intro n a h
    cases n with
    | zero => simp at h; simp [h]
    | succ m => simpa using ih m a (by simpa using h)

/-- The adapter's indexed map-and-filter over the batch equals the
structural positional join, for any starting index. -/
theorem filterMap_enum_getBid (cur : Option String)
    (es0 : List TaboolaAdapter.BidEntry) :
    ∀ (bs : List TaboolaAdapter.BidRequest) (n : Nat),
      ((List.enumFrom n bs).map fun p =>
          TaboolaAdapter.getBid p.2.bidId cur (es0.get? p.1)).filterMap id
        = positionalBids cur bs (es0.drop n) := by
  intro bs
  induction bs with
  | nil => intro n; rfl
  | cons b bs ih =>
    intro n
    simp only [List.enumFrom, List.map]
    cases hg : es0.get? n with
    | none =>
      have h1 : es0.drop n = [] := drop_of_getq_none es0 n hg
      have h2 : es0.get? (n + 1) = none := by
        rw [List.get?_eq_none] at hg ⊢
        exact Nat.le_succ_of_le hg
      rw [h1, positionalBids_nil]
      have hnone : TaboolaAdapter.getBid b.bidId cur none = none := rfl
      simp only [hnone, List.filterMap_cons, id_eq]
      rw [ih (n + 1), drop_of_getq_none es0 (n + 1) h2, positionalBids_nil]
    | some e =>
      have hdrop := drop_of_getq_some es0 n e hg
      obtain ⟨nb, hnb, -⟩ := getBid_some b.bidId cur e
      rw [hdrop]
      simp only [positionalBids, hnb, List.filterMap_cons, id_eq]
      rw [ih (n + 1)]

/-- The positional join pairs request ids index-by-index: its projection to
request ids is the batch's bid-id list truncated to the bid-entry count. -/
theorem positionalBids_map_requestId (cur : Option String) :
    ∀ (bs : List TaboolaAdapter.BidRequest) (es : List TaboolaAdapter.BidEntry),
      (positionalBids cur bs es).map TaboolaAdapter.NormalizedBid.requestId
        = (bs.map TaboolaAdapter.BidRequest.bidId).take es.length := by
  intro bs
  induction bs with
  | nil => intro es; simp [positionalBids]
  | cons b bs ih =>
    intro es
    cases es with
    | nil => simp [positionalBids_nil]
    | cons e es =>
      obtain ⟨nb, hnb, hrid⟩ := getBid_some b.bidId cur e
      simp only [positionalBids, hnb, List.map_cons, List.length_cons,
        List.take_succ_cons]
      rw [hrid, ih es]

/-- The positional join has as many results as the shorter of the batch and
the bid-entry list. -/
theorem positionalBids_length (cur : Option String) :
    ∀ (bs : List TaboolaAdapter.BidRequest) (es : List TaboolaAdapter.BidEntry),
      (positionalBids cur bs es).length = min bs.length es.length := by
  intro bs
  induction bs with
  | nil => intro es; simp [positionalBids]
  | cons b bs ih =>
    intro es
    cases es with
    | nil => simp [positionalBids_nil]
    | cons e es =>
      obtain ⟨nb, hnb, -⟩ := getBid_some b.bidId cur e
      simp only [positionalBids, hnb, List.length_cons]
      rw [ih es]
      simp [Nat.succ_min_succ]

/-- Claim C1: for every batch and every response carrying a first seat with
a bid list, `interpretResponse` matches bid entries to the batch positionally
by index — the output's request ids are exactly the batch's bid ids truncated
to the bid-entry count, and the output length is the minimum of the two
lengths (descriptors without a bid entry are dropped). -/
theorem interpretResponse_positional :
    ∀ (sr : TaboolaAdapter.ServerResponse) (body : TaboolaAdapter.ResponseBody)
      (br : TaboolaAdapter.BidResponseObj) (seat : TaboolaAdapter.SeatBid)
      (seats : List TaboolaAdapter.SeatBid) (es : List TaboolaAdapter.BidEntry)
      (bs : List TaboolaAdapter.BidRequest),
      sr.body = some body → body.bidResponse = some br →
      br.seatbid = some (seat :: seats) → seat.bid = some es →
      ∃ out, TaboolaAdapter.interpretResponse sr (some bs) = .ok out ∧
        out.map TaboolaAdapter.NormalizedBid.requestId
          = (bs.map TaboolaAdapter.BidRequest.bidId).take es.length ∧
        out.length = min bs.length es.length := by
  intro sr body br seat seats es bs h1 h2 h3 h4
  have hg : TaboolaAdapter.getBidResponses sr = .ok (some es, br.cur) := by
    unfold TaboolaAdapter.getBidResponses
    simp only [h1, h2, h3, h4]
  unfold TaboolaAdapter.interpretResponse
  rw [hg]
  have henum : bs.enum = List.enumFrom 0 bs := rfl
  refine ⟨_, rfl, ?_, ?_⟩
  · rw [henum, filterMap_enum_getBid br.cur es bs 0, List.drop_zero,
      positionalBids_map_requestId]
  · rw [henum, filterMap_enum_getBid br.cur es bs 0, List.drop_zero,
      positionalBids_length]

/-- A minimal valid bid request descriptor for concrete instances. -/
def wBid (i : String) : TaboolaAdapter.BidRequest :=
  { bidId := i
    sizes := [(300, 250)]
    params :=
      { publisherId := "pub-1", tagId := "tag-1", bidfloor := none
        bidfloorcur := none, bcat := none, badv := none } }

/-- A minimal response bid entry for concrete instances. -/
def wEntry (p : Int) : TaboolaAdapter.BidEntry :=
  { price := some p, crid := some "c1", adm := some "ad", w := some 300
    h := some 250, adomain := none, metaAdvertiserDomains := none }

/-- A server response whose first seat carries two bid entries. -/
def wResponse : TaboolaAdapter.ServerResponse :=
  { body := some
      { bidResponse := some
          { seatbid := some [{ bid := some [wEntry 1, wEntry 2] }]
            cur := some "USD" } } }

/-- Request-id projection of a mapping result (`none` on a fault). -/
def interpretIds (e : Except Unit (List TaboolaAdapter.NormalizedBid)) :
    Option (List String) :=
  match e with
  | .ok l => some (l.map TaboolaAdapter.NormalizedBid.requestId)
  | .error _ => none

/-- Length projection of a mapping result (`none` on a fault). -/
def interpretLen (e : Except Unit (List TaboolaAdapter.NormalizedBid)) :
    Option Nat :=
  match e with
  | .ok l => some l.length
  | .error _ => none

/-- Claim C1 witness: a batch of 3 descriptors against a response with 2 bid
entries yields 2 results whose request ids are the first two bid ids. -/
theorem interpretResponse_positional_witness :
    interpretIds (TaboolaAdapter.interpretResponse wResponse
        (some [wBid "b0", wBid "b1", wBid "b2"])) = some ["b0", "b1"] ∧
    interpretLen (TaboolaAdapter.interpretResponse wResponse
        (some [wBid "b0", wBid "b1", wBid "b2"])) = some 2 := by
  obtain ⟨out, h1, h2, h3⟩ :=
    interpretResponse_positional wResponse _ _ _ [] [wEntry 1, wEntry 2]
      [wBid "b0", wBid "b1", wBid "b2"] rfl rfl rfl rfl
  simp only [interpretIds, interpretLen, h1]
  refine ⟨?_, ?_⟩
  · rw [h2]; rfl
  · rw [h3]; decide

/-- Claim C7 (corrected form): `interpretResponse` degrades to the empty
result for an absent `bids` array, an absent body, a body without a
`bidResponse` object, an empty `seatbid` array, a first seat without a bid
list, and an empty batch whenever a `seatbid` array is present — but not for
a `bidResponse` object lacking `seatbid` (see the counterexample). -/
theorem interpretResponse_degenerate :
    (∀ sr, TaboolaAdapter.interpretResponse sr none = .ok []) ∧
    (∀ bids, TaboolaAdapter.interpretResponse ⟨none⟩ (some bids) = .ok []) ∧
    (∀ bids, TaboolaAdapter.interpretResponse ⟨some ⟨none⟩⟩ (some bids) = .ok []) ∧
    (∀ bids cur,
      TaboolaAdapter.interpretResponse ⟨some ⟨some ⟨some [], cur⟩⟩⟩ (some bids)
        = .ok []) ∧
    (∀ bids cur seats,
      TaboolaAdapter.interpretResponse
          ⟨some ⟨some ⟨some ({ bid := none } :: seats), cur⟩⟩⟩ (some bids)
        = .ok []) ∧
    (∀ (sr : TaboolaAdapter.ServerResponse) (body : TaboolaAdapter.ResponseBody)
      (br : TaboolaAdapter.BidResponseObj) (l : List TaboolaAdapter.SeatBid),
      sr.body = some body → body.bidResponse = some br → br.seatbid = some l →
      TaboolaAdapter.interpretResponse sr (some []) = .ok []) := by
  refine ⟨fun sr => rfl, fun bids => rfl, fun bids => rfl, fun bids cur => rfl,
    fun bids cur seats => rfl, ?_⟩
  intro sr body br l h1 h2 h3
  unfold TaboolaAdapter.interpretResponse TaboolaAdapter.getBidResponses
  simp only [h1, h2, h3]
  cases l with
  | nil => rfl
  | cons seat rest =>
    cases hb : seat.bid with
    | none => simp [hb]
    | some es => simp [hb]

/-- Claim C7 witness: an empty batch against a well-formed empty `seatbid`
degrades to the empty result. -/
theorem interpretResponse_degenerate_witness :
    TaboolaAdapter.interpretResponse ⟨some ⟨some ⟨some [], none⟩⟩⟩ (some [])
      = .ok [] :=
  interpretResponse_degenerate.2.2.2.2.2 _ ⟨some ⟨some [], none⟩⟩
    ⟨some [], none⟩ [] rfl rfl rfl

/-- Claim C7 counterexample: a `bidResponse` object with no `seatbid` array
makes `getBidResponses` read `seatbid.length` off `undefined`, raising a
`TypeError` — `interpretResponse` faults instead of returning the empty
sequence (here even with an empty batch). -/
theorem interpretResponse_missing_seatbid_faults :
    TaboolaAdapter.interpretResponse ⟨some ⟨some ⟨none, none⟩⟩⟩ (some [])
      = .error () ∧
    ∀ out, TaboolaAdapter.interpretResponse ⟨some ⟨some ⟨none, none⟩⟩⟩ (some [])
      ≠ .ok out := by
  refine ⟨rfl, fun out h => Except.noConfusion h⟩

/-- Claim C6 (corrected form): the built request's `user.buyeruid` always
holds the raw resolver result, and it is omitted from the JSON serialization
exactly when that result is `undefined` — in particular the 0 sentinel is
serialized as `0`, not omitted. -/
theorem buildRequests_buyeruid :
    ∀ (b : TaboolaAdapter.BidRequest) (bs : List TaboolaAdapter.BidRequest)
      (br : TaboolaAdapter.BidderRequest) (env : TaboolaAdapter.Env),
      ∃ r, TaboolaAdapter.buildRequests (b :: bs) br env = .ok r ∧
        r.data.user.buyeruid = TaboolaAdapter.getUserId env.storage ∧
        (TaboolaAdapter.serializedBuyeruid r.data.user = none ↔
          TaboolaAdapter.getUserId env.storage = .undefined) := by
  intro b bs br env
  refine ⟨_, rfl, rfl, ?_⟩
  cases h : TaboolaAdapter.getUserId env.storage <;>
    simp [TaboolaAdapter.serializedBuyeruid, h]

/-- A storage state with no identifier available: storage backends disabled
and no in-page global. -/
def noIdEnv : TaboolaAdapter.Env :=
  { storage :=
      { hasLocalStorage := false
        localStorageEnabled := false
        localStorageVal := none
        cookiesEnabled := false
        trcCookieStorage := none
        tGid := none
        tPtGid := none
        tblaId := none
        trcGlobal := none }
    configPageUrl := none
    topHref := some "https://pub.example/page"
    selfHref := "https://pub.example/page"
    topReferrer := some ""
    selfReferrer := ""
    userAgent := "UA/1.0"
    locationHost := "pub.example"
    language := "en"
    coppaConfig := false }

/-- A minimal bidder request with no consent data. -/
def noIdBidderRequest : TaboolaAdapter.BidderRequest :=
  { auctionId := "auction-1"
    timeout := 500
    refererInfo := { canonicalUrl := none, referer := none }
    gdprConsent := none
    uspConsent := none }

/-- A minimal valid descriptor for the no-identifier instance. -/
def noIdBid : TaboolaAdapter.BidRequest :=
  { bidId := "bid-1"
    sizes := [(300, 250)]
    params :=
      { publisherId := "pub-1", tagId := "tag-1", bidfloor := none
        bidfloorcur := none, bcat := none, badv := none } }

/-- Raw `buyeruid` of a built request (`none` on a fault). -/
def reqBuyeruid (e : Except Unit TaboolaAdapter.ServerRequest) : Option JVal :=
  match e with
  | .ok r => some r.data.user.buyeruid
  | .error _ => none

/-- Serialized `buyeruid` of a built request (`none` on a fault, then
`none`/`some` for an omitted/kept field). -/
def reqSerializedBuyeruid (e : Except Unit TaboolaAdapter.ServerRequest) :
    Option (Option JVal) :=
  match e with
  | .ok r => some (TaboolaAdapter.serializedBuyeruid r.data.user)
  | .error _ => none

/-- Claim C6 counterexample: when resolution yields the zero sentinel, the
built request's `buyeruid` is the number `0` and it survives serialization —
the field is not omitted. -/
theorem buildRequests_sentinel_buyeruid :
    reqBuyeruid (TaboolaAdapter.buildRequests [noIdBid] noIdBidderRequest
      noIdEnv) = some (.num 0) ∧
    reqSerializedBuyeruid (TaboolaAdapter.buildRequests [noIdBid]
      noIdBidderRequest noIdEnv) = some (some (.num 0)) := by
  refine ⟨by decide, by decide⟩

/-- Claim C10: the batch-level fields of the built request — the endpoint
URL's `pid` parameter, `bcat`, `badv` and the whole site descriptor — are
computed from the first descriptor's params alone; replacing the tail of the
batch by any other tail leaves them unchanged. -/
theorem buildRequests_batch_fields_from_head :
    ∀ (b0 : TaboolaAdapter.BidRequest)
      (rest restAlt : List TaboolaAdapter.BidRequest)
      (br : TaboolaAdapter.BidderRequest) (env : TaboolaAdapter.Env),
      ∃ r rAlt, TaboolaAdapter.buildRequests (b0 :: rest) br env = .ok r ∧
        TaboolaAdapter.buildRequests (b0 :: restAlt) br env = .ok rAlt ∧
        r.url = TaboolaAdapter.END_POINT_URL ++ "?pid="
          ++ b0.params.publisherId ∧
        r.data.bcat = b0.params.bcat.getD [] ∧
        r.data.badv = b0.params.badv.getD [] ∧
        r.data.site =
          TaboolaAdapter.getSiteProperties b0.params br.refererInfo env ∧
        rAlt.url = r.url ∧ rAlt.data.bcat = r.data.bcat ∧
        rAlt.data.badv = r.data.badv ∧ rAlt.data.site = r.data.site := by
  intro b0 rest restAlt br env
  exact ⟨_, _, rfl, rfl, rfl, rfl, rfl, rfl, rfl, rfl, rfl, rfl⟩
